import Mathlib

/-!
Shallow embedding of the multiplayer session / shared-state subsystem of the
egypt-mmo repository: the server game state and socket event handlers found at
the bottom of `src/core/WorldManager.js` (the `gameState` object, the
`player_join` / `player_move` / `player_action` / `chat_message` / `disconnect`
socket handlers, the world-time tick and the crafting helpers), and the
client-side `NetworkManager.sendPlayerPosition` rate limiter.

JS `Map`s are modelled as insertion-ordered association lists with overwriting
`set`; JS `Set`s as duplicate-free lists; JS numbers as `ℚ` (timestamps as
`Int`, client-side millisecond clocks as `Nat`); `undefined`-able payload
fields as `Option`, with explicit helpers for JS falsiness (`undefined`, `""`,
`0`). Emitted socket traffic is reified as a list of `Emit` values.
-/

namespace EgyptMMO

/-- A JS `Map` keyed by strings: insertion-ordered association list. -/
abbrev SMap (β : Type) : Type := List (String × β)

/-- `Map.prototype.get`. -/
def mget {β : Type} : SMap β → String → Option β
  | [], _ => none
  | (k0, v) :: rest, k => if k0 = k then some v else mget rest k

/-- `Map.prototype.set`: overwrite in place, or append a new entry. -/
def mset {β : Type} : SMap β → String → β → SMap β
  | [], k, v => [(k, v)]
  | (k0, v0) :: rest, k, v =>
      if k0 = k then (k, v) :: rest else (k0, v0) :: mset rest k v

/-- `Map.prototype.delete`. -/
def mdel {β : Type} : SMap β → String → SMap β
  | [], _ => []
  | (k0, v0) :: rest, k => if k0 = k then mdel rest k else (k0, v0) :: mdel rest k

/-- `Set.prototype.add` on a duplicate-free list. -/
def sadd (s : List String) (x : String) : List String :=
  if x ∈ s then s else s ++ [x]

/-- `Set.prototype.delete`. -/
def sdel (s : List String) (x : String) : List String :=
  s.filter (fun y => y ≠ x)

/-- JS falsiness of a possibly-absent string (`undefined`, `null` or `""`). -/
def strFalsy : Option String → Bool
  | none => true
  | some s => if s = "" then true else false

/-- `o || d` for a possibly-absent string. -/
def strOrDefault (o : Option String) (d : String) : String :=
  match o with
  | none => d
  | some s => if s = "" then d else s

/-- `o || d` for a possibly-absent number (`0` is falsy in JS). -/
def numOrDefault (o : Option ℚ) (d : ℚ) : ℚ :=
  match o with
  | none => d
  | some v => if v = 0 then d else v

structure Vec3 where
  x : ℚ
  y : ℚ
  z : ℚ
deriving DecidableEq, Repr

structure SkillState where
  level : Int
  experience : ℚ
deriving DecidableEq, Repr

structure InvItem where
  id : String
  quantity : ℚ
deriving DecidableEq, Repr

/-- One entry of `gameState.players`: the logical-player record built in the
`player_join` handler. `sessions` models the `Set` of active socket ids. -/
structure Player where
  id : String
  name : String
  position : Vec3
  rotation : Vec3
  level : ℚ
  skills : SMap SkillState
  inventory : List InvItem
  equipment : SMap String
  connectedAt : Int
  lastMove : Option Int
  sessions : List String
deriving DecidableEq, Repr

/-- The player record with `sessions: undefined`, as sent to clients. -/
structure PlayerPublic where
  id : String
  name : String
  position : Vec3
  rotation : Vec3
  level : ℚ
  skills : SMap SkillState
  inventory : List InvItem
  equipment : SMap String
  connectedAt : Int
  lastMove : Option Int
deriving DecidableEq, Repr

/-- `{...player, sessions: undefined}`. -/
def Player.pub (p : Player) : PlayerPublic :=
  { id := p.id, name := p.name, position := p.position, rotation := p.rotation
  , level := p.level, skills := p.skills, inventory := p.inventory
  , equipment := p.equipment, connectedAt := p.connectedAt, lastMove := p.lastMove }

/-- Server-side resource record; the server code only ever reads the
`resources` map (its values pass through to snapshots unmodified). -/
structure Resource where
  id : String
deriving DecidableEq, Repr

/-- Server-side building record; `createBuilding` is absent from the source,
so buildings only pass through to snapshots. -/
structure Building where
  id : String
deriving DecidableEq, Repr

/-- `gameState.worldTime`. -/
structure WorldTime where
  time : ℚ
  cycleSpeed : ℚ
  lastUpdate : Int
deriving DecidableEq, Repr

/-- The mutable `gameState` object of the server. -/
structure GameState where
  players : SMap Player
  playerSessions : SMap String
  resources : SMap Resource
  buildings : SMap Building
  worldTime : WorldTime
deriving DecidableEq, Repr

/-- The `world_state` payload sent to a joining socket. -/
structure WorldSnapshot where
  players : List PlayerPublic
  resources : List Resource
  buildings : List Building
  time : ℚ
  timestamp : Int
deriving DecidableEq, Repr

/-- Payloads of the named socket events the server emits. -/
inductive Msg where
  | playerJoinB (p : Player)
  | worldState (ws : WorldSnapshot)
  | playerJoined (success : Bool) (p : PlayerPublic) (sessionId : String) (message : String)
  | playerMove (playerId : String) (position rotation : Vec3) (timestamp : Int)
  | chatMsg (playerId playerName message channel : String) (timestamp : Int)
  | playerLeave (playerId : String)
  | heartbeatAck (timestamp : Int)
  | craftResultOk (itemId : String) (experience : ℚ)
  | craftResultErr (error : String)
  | playerCrafted (playerId playerName itemId : String)
  | gatheringResultErr (error : String)
  | worldTimeUpdate (time : ℚ) (timestamp : Int)
deriving DecidableEq, Repr

/-- One outgoing transmission: `socket.emit`, `socket.broadcast.emit`
(everyone except the named socket), or `io.emit` (everyone). -/
inductive Emit where
  | toSocket (sid : String) (msg : Msg)
  | broadcastExcept (sid : String) (msg : Msg)
  | toAll (msg : Msg)
deriving DecidableEq, Repr

/-- Whether an emission is a `socket.broadcast.emit` fan-out. -/
def Emit.isBroadcast : Emit → Bool
  | .broadcastExcept _ _ => true
  | _ => false

/-- The initial `gameState`: empty maps, `worldTime` starting at `0.35` with
`cycleSpeed 0.001`; `t0` stands for `Date.now()` at server start. -/
def initState (t0 : Int) : GameState :=
  { players := []
  , playerSessions := []
  , resources := []
  , buildings := []
  , worldTime := { time := 35/100, cycleSpeed := 1/1000, lastUpdate := t0 } }

/-! ## The `player_join` handler (WorldManager.js, server part, lines 2617-2705) -/

/-- The `player_join` request payload (`playerData`). -/
structure JoinData where
  sessionId : Option String
  name : Option String
  rotation : Option Vec3
  level : Option ℚ
  skills : Option (SMap SkillState)
  inventory : Option (List InvItem)
  equipment : Option (SMap String)
deriving DecidableEq, Repr

/-- `Welcome to Egypt MMO, NAME!` -/
def welcomeMsg (name : String) : String :=
  "Welcome to Egypt MMO, " ++ name ++ "!"

/-- `playerId.slice(-4)`. -/
def sliceLast4 (s : String) : String :=
  String.mk (s.data.drop (s.data.length - 4))

/-- The `world_state` payload assembled in the join handler. -/
def snapshotOf (st : GameState) : WorldSnapshot :=
  { players := st.players.map (fun kv => Player.pub kv.2)
  , resources := st.resources.map (fun kv => kv.2)
  , buildings := st.buildings.map (fun kv => kv.2)
  , time := st.worldTime.time
  , timestamp := st.worldTime.lastUpdate }

/-- `let playerId = playerData.sessionId; if (!playerId) playerId = fresh`.
`freshId` stands for the generated
`player_${Date.now()}_${Math.random().toString(36).substr(2, 9)}`. -/
def joinPlayerId (pd : JoinData) (freshId : String) : String :=
  if strFalsy pd.sessionId then freshId else pd.sessionId.getD ""

/-- `isNewPlayer` is set exactly when no (truthy) `sessionId` was presented. -/
def joinIsNewPlayer (pd : JoinData) : Bool :=
  strFalsy pd.sessionId

/-- The fresh player record created when `playerId` is not in the map;
`randX`, `randZ` stand for the two `Math.random()` draws. -/
def mkNewPlayer (pd : JoinData) (playerId : String) (connTime : Int)
    (randX randZ : ℚ) : Player :=
  { id := playerId
  , name := strOrDefault pd.name ("Player_" ++ sliceLast4 playerId)
  , position := { x := (randX - 1/2) * 50, y := 0, z := (randZ - 1/2) * 50 }
  , rotation := pd.rotation.getD { x := 0, y := 0, z := 0 }
  , level := numOrDefault pd.level 1
  , skills := pd.skills.getD []
  , inventory := pd.inventory.getD []
  , equipment := pd.equipment.getD []
  , connectedAt := connTime
  , lastMove := none
  , sessions := [] }

/-- The record resolved by `gameState.players.get(playerId)`, or the freshly
created one when the lookup misses. -/
def joinBase (st : GameState) (connTime : Int) (pd : JoinData)
    (freshId : String) (randX randZ : ℚ) : Player :=
  match mget st.players (joinPlayerId pd freshId) with
  | some p => p
  | none => mkNewPlayer pd (joinPlayerId pd freshId) connTime randX randZ

/-- The joining player's record after `player.sessions.add(socket.id)`. -/
def joinPlayerRec (st : GameState) (sid : String) (connTime : Int)
    (pd : JoinData) (freshId : String) (randX randZ : ℚ) : Player :=
  let base := joinBase st connTime pd freshId randX randZ
  { base with sessions := sadd base.sessions sid }

/-- The game state after the join handler's mutations: the (new or updated)
record stored under `playerId`, and `playerSessions[socket.id] = playerId`. -/
def joinState (st : GameState) (sid : String) (connTime : Int) (pd : JoinData)
    (freshId : String) (randX randZ : ℚ) : GameState :=
  { st with
      players := mset st.players (joinPlayerId pd freshId)
        (joinPlayerRec st sid connTime pd freshId randX randZ)
    , playerSessions := mset st.playerSessions sid (joinPlayerId pd freshId) }

/-- The `player_join` handler: resolve or create the record, attach the
socket to `sessions` and `playerSessions`, broadcast `player_join` only for a
new player, then send `world_state` and the `player_joined` confirmation to
the joining socket alone. -/
def playerJoin (st : GameState) (sid : String) (connTime : Int) (pd : JoinData)
    (freshId : String) (randX randZ : ℚ) : GameState × List Emit :=
  let playerId := joinPlayerId pd freshId
  let player := joinPlayerRec st sid connTime pd freshId randX randZ
  let st1 := joinState st sid connTime pd freshId randX randZ
  ((st1),
   (if joinIsNewPlayer pd then [Emit.broadcastExcept sid (Msg.playerJoinB player)]
    else []) ++
     [Emit.toSocket sid (Msg.worldState (snapshotOf st1)),
      Emit.toSocket sid (Msg.playerJoined true (Player.pub player) playerId
        (welcomeMsg player.name))])

/-! ## The `player_move` and `chat_message` handlers (lines 2707-2729, 2760-2781) -/

/-- The `player_move` payload. -/
structure MoveData where
  position : Vec3
  rotation : Vec3
  timestamp : Int
deriving DecidableEq, Repr

/-- The `player_move` handler: resolve the socket to a logical player via
`playerSessions`; on success overwrite position/rotation, stamp `lastMove`
with `Date.now()` (`now`), and broadcast to everyone but the sender, keyed by
the logical player id. -/
def playerMove (st : GameState) (sid : String) (d : MoveData) (now : Int) :
    GameState × List Emit :=
  match mget st.playerSessions sid with
  | none => (st, [])
  | some playerId =>
    match mget st.players playerId with
    | none => (st, [])
    | some p =>
      let p1 := { p with position := d.position, rotation := d.rotation
                       , lastMove := some now }
      ({ st with players := mset st.players playerId p1 },
       [Emit.broadcastExcept sid (Msg.playerMove playerId d.position d.rotation d.timestamp)])

/-- The `chat_message` payload. -/
structure ChatData where
  message : String
  channel : Option String
  timestamp : Int
deriving DecidableEq, Repr

/-- The `chat_message` handler: resolve the sender, then `io.emit` the chat
line (to every session, sender included) keyed by the logical player id. -/
def chatMessage (st : GameState) (sid : String) (d : ChatData) :
    GameState × List Emit :=
  match mget st.playerSessions sid with
  | none => (st, [])
  | some playerId =>
    match mget st.players playerId with
    | none => (st, [])
    | some p =>
      (st, [Emit.toAll (Msg.chatMsg playerId p.name d.message
              (strOrDefault d.channel "global") d.timestamp)])

/-! ## The `disconnect` handler (lines 2798-2828) -/

/-- The disconnect path once the session resolved to an existing record:
drop the session from `sessions` and `playerSessions`, and when `sessions`
became empty, delete the record and broadcast `player_leave`. -/
def disconnectKnown (st : GameState) (sid playerId : String) (p : Player) :
    GameState × List Emit :=
  let sessions1 := sdel p.sessions sid
  let players1 := mset st.players playerId { p with sessions := sessions1 }
  let sess1 := mdel st.playerSessions sid
  if sessions1.isEmpty then
    ({ st with players := mdel players1 playerId, playerSessions := sess1 },
     [Emit.broadcastExcept sid (Msg.playerLeave playerId)])
  else
    ({ st with players := players1, playerSessions := sess1 }, [])

/-- The `disconnect` handler: drop the session from the owning player and
from `playerSessions`; when the session set becomes empty, delete the player
record and broadcast `player_leave` with the logical player id. -/
def disconnect (st : GameState) (sid : String) : GameState × List Emit :=
  match mget st.playerSessions sid with
  | none => (st, [])
  | some playerId =>
    match mget st.players playerId with
    | none => (st, [])
    | some p => disconnectKnown st sid playerId p

/-! ## The world-time tick (lines 2584-2606) -/

/-- One firing of the `setInterval` world-time timer at wall-clock `now`:
advance by `cycleSpeed * deltaSeconds * 60`, wrap to `0` at `1.0`, and
`io.emit` a time update only when at least one player record exists. -/
def worldTick (st : GameState) (now : Int) : GameState × List Emit :=
  let deltaTime : ℚ := ((now - st.worldTime.lastUpdate : Int) : ℚ) / 1000
  let t1 := st.worldTime.time + st.worldTime.cycleSpeed * deltaTime * 60
  let t2 := if t1 >= 1 then 0 else t1
  let st1 := { st with worldTime := { time := t2
                                    , cycleSpeed := st.worldTime.cycleSpeed
                                    , lastUpdate := now } }
  (st1,
   if st.players.length > 0 then [Emit.toAll (Msg.worldTimeUpdate t2 now)] else [])

/-! ## Crafting / gathering / building handlers (lines 2731-2752, 2832-2978)

These handlers look the player up with `gameState.players.get(socket.id)` —
the socket id, not the logical player id. Several helpers they call past that
guard (`isResourceAvailable`, `calculateGatheringResult`, `canPlaceBuilding`,
`createBuilding`, and the `socket` identifier free in `addExperience`) are not
defined anywhere in the repository, so reaching them throws a JS
`ReferenceError`; those points are modelled as `none`. -/

/-- A combined payload record for action/craft/gather/build events; each
handler reads only the fields it needs, as JS does. -/
structure ActionData where
  action : String
  itemId : String
  resourceId : String
  buildingType : String
deriving DecidableEq, Repr

structure Material where
  id : String
  quantity : ℚ
deriving DecidableEq, Repr

structure Recipe where
  skill : String
  experience : ℚ
  materials : List Material
deriving DecidableEq, Repr

/-- The hard-coded recipe table (`getCraftingRecipe`). -/
def getCraftingRecipe (itemId : String) : Option Recipe :=
  if itemId = "bronze_sword" then
    some { skill := "smithing", experience := 25
         , materials := [{ id := "bronze_ingot", quantity := 2 }
                        , { id := "wood", quantity := 1 }] }
  else none

/-- `hasRequiredMaterials`. -/
def hasRequiredMaterials (p : Player) (mats : List Material) : Bool :=
  mats.all fun m =>
    match p.inventory.find? (fun it => it.id = m.id) with
    | some it => if m.quantity ≤ it.quantity then true else false
    | none => false

/-- Decrement the first inventory item with the given id (in-place JS
mutation of the object `find` returned). -/
def decFirst : List InvItem → String → ℚ → List InvItem
  | [], _, _ => []
  | it :: rest, mid, dq =>
      if it.id = mid then { it with quantity := it.quantity - dq } :: rest
      else it :: decFirst rest mid dq

/-- One step of `consumeMaterials`: decrement, then drop every item with that
id when the decremented quantity is `<= 0`. -/
def consumeOne (inv : List InvItem) (m : Material) : List InvItem :=
  match inv.find? (fun it => it.id = m.id) with
  | none => inv
  | some it =>
      let inv1 := decFirst inv m.id m.quantity
      if it.quantity - m.quantity ≤ 0 then inv1.filter (fun jt => jt.id ≠ m.id)
      else inv1

/-- `consumeMaterials`. -/
def consumeMaterials (inv : List InvItem) (mats : List Material) : List InvItem :=
  mats.foldl consumeOne inv

/-- `getExperienceForLevel`: `Math.floor(100 * Math.pow(1.5, level - 1))`. -/
def getExperienceForLevel (level : Int) : ℚ :=
  Int.floor ((100 : ℚ) * (3/2 : ℚ) ^ (level - 1))

/-- `addExperience`: create the skill entry when absent, add experience, and
check for level-up. The level-up branch calls `socket.emit` with `socket` not
in scope at module level, throwing a `ReferenceError`: modelled as `none`. -/
def addExperience (p : Player) (skill : String) (amount : ℚ) : Option Player :=
  let sk0 := (mget p.skills skill).getD { level := 1, experience := 0 }
  let sk1 := { sk0 with experience := sk0.experience + amount }
  if getExperienceForLevel (sk1.level + 1) ≤ sk1.experience then none
  else some { p with skills := mset p.skills skill sk1 }

/-- `handleCrafting`: guarded by `players.get(socket.id)`. -/
def handleCrafting (st : GameState) (sid : String) (d : ActionData) :
    Option (GameState × List Emit) :=
  match mget st.players sid with
  | none => some (st, [])
  | some player =>
    match getCraftingRecipe d.itemId with
    | none => some (st, [Emit.toSocket sid (Msg.craftResultErr "Recipe not found")])
    | some recipe =>
      if hasRequiredMaterials player recipe.materials then
        let inv1 := consumeMaterials player.inventory recipe.materials
        let inv2 := inv1 ++ [{ id := d.itemId, quantity := 1 }]
        match addExperience { player with inventory := inv2 } recipe.skill recipe.experience with
        | none => none
        | some p1 =>
          some ({ st with players := mset st.players sid p1 },
                [Emit.toSocket sid (Msg.craftResultOk d.itemId recipe.experience),
                 Emit.broadcastExcept sid (Msg.playerCrafted sid player.name d.itemId)])
      else
        some (st, [Emit.toSocket sid (Msg.craftResultErr "Insufficient materials")])

/-- `handleResourceGathering`: guarded by `players.get(socket.id)`; when a
resource is found the code calls `isResourceAvailable`, which does not exist
in the repository (`ReferenceError`, modelled `none`); when not found it
reports `Resource not available`. -/
def handleResourceGathering (st : GameState) (sid : String) (d : ActionData) :
    Option (GameState × List Emit) :=
  match mget st.players sid with
  | none => some (st, [])
  | some _ =>
    match mget st.resources d.resourceId with
    | some _ => none
    | none => some (st, [Emit.toSocket sid (Msg.gatheringResultErr "Resource not available")])

/-- `handleBuildingPlacement`: guarded by `players.get(socket.id)`; past the
guard it calls `canPlaceBuilding`, which does not exist in the repository
(`ReferenceError`, modelled `none`). -/
def handleBuildingPlacement (st : GameState) (sid : String) (_d : ActionData) :
    Option (GameState × List Emit) :=
  match mget st.players sid with
  | none => some (st, [])
  | some _ => none

/-- The `player_action` handler: its own `players.get(socket.id)` guard, then
a switch on `data.action` dispatching to the three handlers above. -/
def playerAction (st : GameState) (sid : String) (d : ActionData) :
    Option (GameState × List Emit) :=
  match mget st.players sid with
  | none => some (st, [])
  | some _ =>
    if d.action = "craft_item" then handleCrafting st sid d
    else if d.action = "gather_resource" then handleResourceGathering st sid d
    else if d.action = "place_building" then handleBuildingPlacement st sid d
    else some (st, [])

/-! ## Join/disconnect event sequences (for the session-lifecycle invariant) -/

/-- A `player_join` or `disconnect` event with all its ambient inputs. -/
inductive Ev where
  | join (sid : String) (connTime : Int) (pd : JoinData) (freshId : String)
      (randX randZ : ℚ)
  | disc (sid : String)

/-- Run one event's handler to completion, keeping the resulting state. -/
def stepEv (st : GameState) : Ev → GameState
  | .join sid ct pd fid rX rZ => (playerJoin st sid ct pd fid rX rZ).1
  | .disc sid => (disconnect st sid).1

/-- Run a sequence of events from a state. -/
def runEvs (st : GameState) : List Ev → GameState
  | [] => st
  | e :: rest => runEvs (stepEv st e) rest

/-! ## Client-side `NetworkManager.sendPlayerPosition` (unnamed part_002) -/

/-- The outgoing `player_move` message built by the client. -/
structure OutMoveMsg where
  playerId : Option String
  position : Vec3
  timestamp : Nat
deriving DecidableEq, Repr

/-- The slice of `NetworkManager` state that `sendPlayerPosition` reads and
writes; the constructor sets `lastPositionUpdate = 0`. -/
structure NetClient where
  hasSocket : Bool
  isConnected : Bool
  playerId : Option String
  lastPositionUpdate : Nat
deriving DecidableEq, Repr

/-- `sendPlayerPosition`: bail out when unconnected; skip when the previous
send (a truthy `lastPositionUpdate`) was less than 100ms ago; otherwise emit
and stamp `lastPositionUpdate = Date.now()` (`now`). -/
def sendPlayerPosition (c : NetClient) (now : Nat) (pos : Vec3) :
    NetClient × Option OutMoveMsg :=
  if !c.hasSocket || !c.isConnected then (c, none)
  else if c.lastPositionUpdate ≠ 0 ∧ now - c.lastPositionUpdate < 100 then (c, none)
  else ({ c with lastPositionUpdate := now },
        some { playerId := c.playerId, position := pos, timestamp := now })

/-- Run a sequence of `sendPlayerPosition` calls, collecting the messages
actually emitted. -/
def runSends (c : NetClient) : List (Nat × Vec3) → NetClient × List OutMoveMsg
  | [] => (c, [])
  | (t, pos) :: rest =>
    let step := sendPlayerPosition c t pos
    let restRun := runSends step.1 rest
    (restRun.1, (match step.2 with | none => [] | some m => [m]) ++ restRun.2)

/-! ## Invariant predicates and expected-result shapes -/

/-- Every stored player record has a non-empty session set and is stored
under its own id. -/
def InvPlayers (st : GameState) : Prop :=
  ∀ pid p, mget st.players pid = some p → p.sessions ≠ [] ∧ p.id = pid

/-- Every `playerSessions` entry points at an existing player record that
lists the session in its `sessions` set. -/
def InvSessions (st : GameState) : Prop :=
  ∀ sid pid, mget st.playerSessions sid = some pid →
    ∃ p, mget st.players pid = some p ∧ sid ∈ p.sessions

/-- The whole session-lifecycle invariant: a record exists iff its session
set is non-empty, and the session map never dangles. -/
def SessionInv (st : GameState) : Prop :=
  InvPlayers st ∧ InvSessions st

/-- Every player record is stored under its own id. -/
def InvIds (st : GameState) : Prop :=
  ∀ k q, mget st.players k = some q → q.id = k

/-- The outcome of a join that reattached to the existing record `p` stored
under `tok`: only `sessions` grows, the snapshot and the confirmation go to
the joining socket alone, and no join broadcast appears. -/
def reattachResult (st : GameState) (sid tok : String) (p : Player) :
    GameState × List Emit :=
  let p1 : Player := { p with sessions := sadd p.sessions sid }
  let st1 : GameState :=
    { st with players := mset st.players tok p1
            , playerSessions := mset st.playerSessions sid tok }
  (st1,
   [Emit.toSocket sid (Msg.worldState (snapshotOf st1)),
    Emit.toSocket sid (Msg.playerJoined true (Player.pub p1) tok (welcomeMsg p1.name))])

/-- The state part of a disconnect that emptied the player's session set:
record deleted, session entry deleted. -/
def discEmptiedState (st : GameState) (sid pid : String) (p : Player) : GameState :=
  { st with
      players := mdel (mset st.players pid { p with sessions := sdel p.sessions sid }) pid
    , playerSessions := mdel st.playerSessions sid }

/-- The state part of a disconnect that left other sessions attached: the
record stays with the one session removed. -/
def discRemainingState (st : GameState) (sid pid : String) (p : Player) : GameState :=
  { st with
      players := mset st.players pid { p with sessions := sdel p.sessions sid }
    , playerSessions := mdel st.playerSessions sid }

/-- The record a join stores when the looked-up id was absent from
`players`: the freshly built record with the joining socket attached. -/
def freshJoinRec (pd : JoinData) (playerId sid : String) (ct : Int)
    (rX rZ : ℚ) : Player :=
  { mkNewPlayer pd playerId ct rX rZ with sessions := [sid] }

/-- The advance added to `worldTime.time` by one tick:
`cycleSpeed * deltaSeconds * 60` with `deltaSeconds = (now - lastUpdate)/1000`. -/
def tickInc (st : GameState) (now : Int) : ℚ :=
  st.worldTime.cycleSpeed * (((now - st.worldTime.lastUpdate : Int) : ℚ) / 1000) * 60

/-- Sample fixtures used by the concrete witnesses. -/
def samplePlayer : Player :=
  { id := "tokA", name := "Ana", position := { x := 1, y := 0, z := 2 }
  , rotation := { x := 0, y := 0, z := 0 }, level := 1, skills := []
  , inventory := [], equipment := [], connectedAt := 0, lastMove := none
  , sessions := ["sock1"] }

def samplePlayer2 : Player :=
  { samplePlayer with id := "tokB", name := "Bea", sessions := ["sock1", "sock9"] }

def sampleState : GameState :=
  { players := [("tokA", samplePlayer)]
  , playerSessions := [("sock1", "tokA")]
  , resources := []
  , buildings := []
  , worldTime := { time := 35/100, cycleSpeed := 1/1000, lastUpdate := 0 } }

def sampleState2 : GameState :=
  { sampleState with players := [("tokB", samplePlayer2)]
                   , playerSessions := [("sock1", "tokB"), ("sock9", "tokB")] }

def sampleJoin : JoinData :=
  { sessionId := some "tokA", name := none, rotation := none, level := none
  , skills := none, inventory := none, equipment := none }

def sampleJoinNoToken : JoinData :=
  { sampleJoin with sessionId := none }

def staleJoin : JoinData :=
  { sampleJoin with sessionId := some "stale-token" }

def sampleMove : MoveData :=
  { position := { x := 7, y := 0, z := 9 }
  , rotation := { x := 0, y := 1, z := 0 }, timestamp := 123 }

def sampleChat : ChatData :=
  { message := "hi", channel := none, timestamp := 124 }

def sampleAction : ActionData :=
  { action := "craft_item", itemId := "bronze_sword"
  , resourceId := "r1", buildingType := "hut" }

def sampleVec : Vec3 := { x := 0, y := 0, z := 0 }

def sampleClient : NetClient :=
  { hasSocket := true, isConnected := true, playerId := some "tokA"
  , lastPositionUpdate := 100 }

/-! ## Map and set lemmas -/

theorem mget_mset_self {β : Type} (m : SMap β) (k : String) (v : β) :
    mget (mset m k v) k = some v := by
  induction m with
  | nil => simp [mget, mset]
  | cons kv rest ih =>
    obtain ⟨k0, v0⟩ := kv
    by_cases h : k0 = k
    · simp [mget, mset, h]
    · simp [mget, mset, h, ih]

theorem mget_mset_ne {β : Type} (m : SMap β) (k k1 : String) (v : β)
    (h : k1 ≠ k) : mget (mset m k v) k1 = mget m k1 := by
  induction m with
  | nil => simp [mget, mset, Ne.symm h]
  | cons kv rest ih =>
    obtain ⟨k0, v0⟩ := kv
    by_cases h0 : k0 = k
    · subst h0
      simp [mget, mset, Ne.symm h]
    · simp [mget, mset, h0, ih]

theorem mget_mdel_self {β : Type} (m : SMap β) (k : String) :
    mget (mdel m k) k = none := by
  induction m with
  | nil => simp [mget, mdel]
  | cons kv rest ih =>
    obtain ⟨k0, v0⟩ := kv
    by_cases h : k0 = k
    · simp [mdel, h, ih]
    · simp [mget, mdel, h, ih]

theorem mget_mdel_ne {β : Type} (m : SMap β) (k k1 : String) (h : k1 ≠ k) :
    mget (mdel m k) k1 = mget m k1 := by
  induction m with
  | nil => simp [mget, mdel]
  | cons kv rest ih =>
    obtain ⟨k0, v0⟩ := kv
    by_cases h0 : k0 = k
    · subst h0
      simp [mget, mdel, Ne.symm h, ih]
    · simp [mget, mdel, h0, ih]

theorem mem_sadd_self (s : List String) (x : String) : x ∈ sadd s x := by
  by_cases h : x ∈ s <;> simp [sadd, h]

theorem mem_sadd_of_mem (s : List String) (x y : String) (h : y ∈ s) :
    y ∈ sadd s x := by
  by_cases hx : x ∈ s <;> simp [sadd, hx, h]

theorem sadd_ne_nil (s : List String) (x : String) : sadd s x ≠ [] := by
  intro h
  have := mem_sadd_self s x
  simp [h] at this

theorem mem_sdel (s : List String) (x y : String) :
    y ∈ sdel s x ↔ y ∈ s ∧ y ≠ x := by
  simp [sdel, List.mem_filter]

theorem eq_of_sdel_nil (s : List String) (x y : String)
    (h : sdel s x = []) (hy : y ∈ s) : y = x := by
  by_contra hne
  have : y ∈ sdel s x := (mem_sdel s x y).2 ⟨hy, hne⟩
  simp [h] at this

/-! ## The session-lifecycle invariant -/

theorem sessionInv_init (t0 : Int) : SessionInv (initState t0) := by
  constructor
  · intro pid p h
    simp [initState, mget] at h
  · intro sid pid h
    simp [initState, mget] at h

theorem joinBase_of_found (st : GameState) (ct : Int) (pd : JoinData)
    (fid : String) (rX rZ : ℚ) (p : Player)
    (hb : mget st.players (joinPlayerId pd fid) = some p) :
    joinBase st ct pd fid rX rZ = p := by
  simp [joinBase, hb]

theorem joinBase_of_missing (st : GameState) (ct : Int) (pd : JoinData)
    (fid : String) (rX rZ : ℚ)
    (hb : mget st.players (joinPlayerId pd fid) = none) :
    joinBase st ct pd fid rX rZ = mkNewPlayer pd (joinPlayerId pd fid) ct rX rZ := by
  simp [joinBase, hb]

theorem joinBase_id (st : GameState) (ct : Int) (pd : JoinData) (fid : String)
    (rX rZ : ℚ) (hIds : InvIds st) :
    (joinBase st ct pd fid rX rZ).id = joinPlayerId pd fid := by
  cases hb : mget st.players (joinPlayerId pd fid) with
  | some p =>
    rw [joinBase_of_found st ct pd fid rX rZ p hb]
    exact hIds _ p hb
  | none =>
    rw [joinBase_of_missing st ct pd fid rX rZ hb]
    rfl

theorem sessionInv_joinState (st : GameState) (sid : String) (ct : Int)
    (pd : JoinData) (fid : String) (rX rZ : ℚ) (hInv : SessionInv st) :
    SessionInv (joinState st sid ct pd fid rX rZ) := by
  obtain ⟨hP, hS⟩ := hInv
  constructor
  · intro pid1 p1 h1
    simp only [joinState] at h1
    by_cases he : pid1 = joinPlayerId pd fid
    · subst he
      rw [mget_mset_self] at h1
      injection h1 with h1
      subst h1
      refine ⟨?_, ?_⟩
      · show (joinPlayerRec st sid ct pd fid rX rZ).sessions ≠ []
        simp only [joinPlayerRec]
        exact sadd_ne_nil _ _
      · show (joinPlayerRec st sid ct pd fid rX rZ).id = _
        simp only [joinPlayerRec]
        exact joinBase_id st ct pd fid rX rZ (fun k q h => (hP k q h).2)
    · rw [mget_mset_ne _ _ _ _ he] at h1
      exact hP pid1 p1 h1
  · intro sid1 pid1 h1
    simp only [joinState] at h1 ⊢
    by_cases hs : sid1 = sid
    · subst hs
      rw [mget_mset_self] at h1
      injection h1 with h1
      subst h1
      refine ⟨_, mget_mset_self _ _ _, ?_⟩
      simp only [joinPlayerRec]
      exact mem_sadd_self _ _
    · rw [mget_mset_ne _ _ _ _ hs] at h1
      obtain ⟨q, hq, hmem⟩ := hS sid1 pid1 h1
      by_cases he : pid1 = joinPlayerId pd fid
      · subst he
        refine ⟨_, mget_mset_self _ _ _, ?_⟩
        have hbq : joinBase st ct pd fid rX rZ = q :=
          joinBase_of_found st ct pd fid rX rZ q hq
        simp only [joinPlayerRec, hbq]
        exact mem_sadd_of_mem _ _ _ hmem
      · refine ⟨q, ?_, hmem⟩
        rw [mget_mset_ne _ _ _ _ he]
        exact hq

theorem sessionInv_join (st : GameState) (sid : String) (ct : Int)
    (pd : JoinData) (fid : String) (rX rZ : ℚ) (hInv : SessionInv st) :
    SessionInv (playerJoin st sid ct pd fid rX rZ).1 :=
  sessionInv_joinState st sid ct pd fid rX rZ hInv

theorem disconnect_resolved (st : GameState) (sid pid : String) (p : Player)
    (hsess : mget st.playerSessions sid = some pid)
    (hp : mget st.players pid = some p) :
    disconnect st sid = disconnectKnown st sid pid p := by
  simp only [disconnect, hsess, hp]

theorem disconnectKnown_empty (st : GameState) (sid pid : String) (p : Player)
    (h : sdel p.sessions sid = []) :
    disconnectKnown st sid pid p =
      ({ st with
           players := mdel (mset st.players pid { p with sessions := sdel p.sessions sid }) pid
         , playerSessions := mdel st.playerSessions sid },
       [Emit.broadcastExcept sid (Msg.playerLeave pid)]) := by
  simp [disconnectKnown, h]

theorem disconnectKnown_rest (st : GameState) (sid pid : String) (p : Player)
    (h : sdel p.sessions sid ≠ []) :
    disconnectKnown st sid pid p =
      ({ st with
           players := mset st.players pid { p with sessions := sdel p.sessions sid }
         , playerSessions := mdel st.playerSessions sid }, []) := by
  simp [disconnectKnown, List.isEmpty_iff, h]

theorem sessionInv_disconnect (st : GameState) (sid : String)
    (hInv : SessionInv st) : SessionInv (disconnect st sid).1 := by
  obtain ⟨hP, hS⟩ := hInv
  cases hsess : mget st.playerSessions sid with
  | none =>
    simp only [disconnect, hsess]
    exact ⟨hP, hS⟩
  | some pid =>
    cases hp : mget st.players pid with
    | none =>
      simp only [disconnect, hsess, hp]
      exact ⟨hP, hS⟩
    | some p =>
      rw [disconnect_resolved st sid pid p hsess hp]
      by_cases hemp : sdel p.sessions sid = []
      · rw [disconnectKnown_empty st sid pid p hemp]
        constructor
        · intro pid1 p1 h1
          by_cases he : pid1 = pid
          · subst he
            rw [mget_mdel_self] at h1
            exact absurd h1 (by simp)
          · rw [mget_mdel_ne _ _ _ he, mget_mset_ne _ _ _ _ he] at h1
            exact hP pid1 p1 h1
        · intro sid1 pid1 h1
          by_cases hs : sid1 = sid
          · subst hs
            rw [mget_mdel_self] at h1
            exact absurd h1 (by simp)
          · rw [mget_mdel_ne _ _ _ hs] at h1
            obtain ⟨q, hq, hmem⟩ := hS sid1 pid1 h1
            by_cases he : pid1 = pid
            · exfalso
              subst he
              have hqp : q = p := by
                rw [hq] at hp
                exact Option.some.inj hp
              subst hqp
              exact hs (eq_of_sdel_nil q.sessions sid sid1 hemp hmem)
            · refine ⟨q, ?_, hmem⟩
              rw [mget_mdel_ne _ _ _ he, mget_mset_ne _ _ _ _ he]
              exact hq
      · rw [disconnectKnown_rest st sid pid p hemp]
        constructor
        · intro pid1 p1 h1
          by_cases he : pid1 = pid
          · subst he
            rw [mget_mset_self] at h1
            injection h1 with h1
            subst h1
            exact ⟨hemp, (hP pid1 p hp).2⟩
          · rw [mget_mset_ne _ _ _ _ he] at h1
            exact hP pid1 p1 h1
        · intro sid1 pid1 h1
          by_cases hs : sid1 = sid
          · subst hs
            rw [mget_mdel_self] at h1
            exact absurd h1 (by simp)
          · rw [mget_mdel_ne _ _ _ hs] at h1
            obtain ⟨q, hq, hmem⟩ := hS sid1 pid1 h1
            by_cases he : pid1 = pid
            · subst he
              have hqp : q = p := by
                rw [hq] at hp
                exact Option.some.inj hp
              subst hqp
              refine ⟨_, mget_mset_self _ _ _, ?_⟩
              exact (mem_sdel _ _ _).2 ⟨hmem, hs⟩
            · refine ⟨q, ?_, hmem⟩
              rw [mget_mset_ne _ _ _ _ he]
              exact hq

theorem sessionInv_step (st : GameState) (e : Ev) (hInv : SessionInv st) :
    SessionInv (stepEv st e) := by
  cases e with
  | join sid ct pd fid rX rZ => exact sessionInv_join st sid ct pd fid rX rZ hInv
  | disc sid => exact sessionInv_disconnect st sid hInv

theorem sessionInv_runEvs (evs : List Ev) (st : GameState)
    (hInv : SessionInv st) : SessionInv (runEvs st evs) := by
  induction evs generalizing st with
  | nil => exact hInv
  | cons e rest ih => exact ih (stepEv st e) (sessionInv_step st e hInv)

/-! ## Claim theorems -/

/-- C1: for every sequence of `player_join` and `disconnect` events, after
each handler runs to completion a `LogicalPlayer` record is present iff its
`activeSessions` set is non-empty — no record with an empty session set
survives the handler that emptied it — and every `playerSessions` entry
points at an existing player record. -/
theorem c1_record_iff_active_sessions (evs : List Ev) (t0 : Int) :
    SessionInv (runEvs (initState t0) evs) :=
  sessionInv_runEvs evs (initState t0) (sessionInv_init t0)

/-- C2: a join presenting a token that resolves to an existing record
attaches the new transport to that record's sessions with `isNewPlayer =
false`: no field other than `sessions` changes (no spawn regeneration), no
join broadcast is sent, and the full world snapshot still goes to the
joining socket alone. -/
theorem c2_reattach_existing_token (st : GameState) (sid : String) (ct : Int)
    (pd : JoinData) (fid : String) (rX rZ : ℚ) (tok : String) (p : Player)
    (hs : pd.sessionId = some tok) (hne : tok ≠ "")
    (hp : mget st.players tok = some p) :
    joinIsNewPlayer pd = false ∧
    playerJoin st sid ct pd fid rX rZ = reattachResult st sid tok p := by
  have hid : joinPlayerId pd fid = tok := by
    simp [joinPlayerId, strFalsy, hs, hne]
  have hnew : joinIsNewPlayer pd = false := by
    simp [joinIsNewPlayer, strFalsy, hs, hne]
  have hbase : joinBase st ct pd fid rX rZ = p := by
    apply joinBase_of_found
    rw [hid]
    exact hp
  refine ⟨hnew, ?_⟩
  simp only [playerJoin, joinState, joinPlayerRec, reattachResult, hid, hbase, hnew,
    Bool.false_eq_true, if_false, List.nil_append]

theorem c2_witness :
    sampleJoin.sessionId = some "tokA" ∧ "tokA" ≠ "" ∧
    mget sampleState.players "tokA" = some samplePlayer ∧
    (joinIsNewPlayer sampleJoin = false ∧
     playerJoin sampleState "sock2" 5 sampleJoin "player_fresh" 0 0 =
       reattachResult sampleState "sock2" "tokA" samplePlayer) :=
  ⟨rfl, by decide, rfl,
   c2_reattach_existing_token sampleState "sock2" 5 sampleJoin "player_fresh" 0 0
     "tokA" samplePlayer rfl (by decide) rfl⟩

/-- C4: a disconnect of a known transport broadcasts a leave iff it empties
the owning player's session set; then the record is deleted and exactly one
`player_leave` with the logical id is emitted; otherwise only the session is
removed, the record stays, and nothing is broadcast. -/
theorem c4_leave_broadcast_iff_emptied (st : GameState) (sid pid : String)
    (p : Player) (hsess : mget st.playerSessions sid = some pid)
    (hp : mget st.players pid = some p) :
    (sdel p.sessions sid = [] →
      disconnect st sid =
        (discEmptiedState st sid pid p,
         [Emit.broadcastExcept sid (Msg.playerLeave pid)]) ∧
      mget (disconnect st sid).1.players pid = none) ∧
    (sdel p.sessions sid ≠ [] →
      disconnect st sid = (discRemainingState st sid pid p, []) ∧
      mget (disconnect st sid).1.players pid =
        some { p with sessions := sdel p.sessions sid }) := by
  rw [disconnect_resolved st sid pid p hsess hp]
  constructor
  · intro hemp
    rw [disconnectKnown_empty st sid pid p hemp]
    exact ⟨rfl, mget_mdel_self _ _⟩
  · intro hne
    rw [disconnectKnown_rest st sid pid p hne]
    exact ⟨rfl, mget_mset_self _ _ _⟩

theorem c4_witness :
    mget sampleState.playerSessions "sock1" = some "tokA" ∧
    mget sampleState.players "tokA" = some samplePlayer ∧
    sdel samplePlayer.sessions "sock1" = [] ∧
    (disconnect sampleState "sock1" =
       (discEmptiedState sampleState "sock1" "tokA" samplePlayer,
        [Emit.broadcastExcept "sock1" (Msg.playerLeave "tokA")]) ∧
     mget (disconnect sampleState "sock1").1.players "tokA" = none) :=
  ⟨rfl, rfl, by decide,
   (c4_leave_broadcast_iff_emptied sampleState "sock1" "tokA" samplePlayer
      rfl rfl).1 (by decide)⟩

/-- C5: a `player_move` or `chat_message` whose transport does not resolve to
a known `LogicalPlayer` is discarded: the whole game state is unchanged and
nothing is emitted to any session. -/
theorem c5_unknown_session_discard (st : GameState) (sid : String)
    (d : MoveData) (c : ChatData) (now : Int)
    (h : (mget st.playerSessions sid).bind (fun pid => mget st.players pid) = none) :
    playerMove st sid d now = (st, []) ∧ chatMessage st sid c = (st, []) := by
  cases hsess : mget st.playerSessions sid with
  | none => exact ⟨by simp [playerMove, hsess], by simp [chatMessage, hsess]⟩
  | some pid =>
    have hp : mget st.players pid = none := by simpa [hsess] using h
    exact ⟨by simp [playerMove, hsess, hp], by simp [chatMessage, hsess, hp]⟩

theorem c5_witness :
    ((mget (initState 0).playerSessions "sockX").bind
        (fun pid => mget (initState 0).players pid) = none) ∧
    (playerMove (initState 0) "sockX" sampleMove 200 = (initState 0, []) ∧
     chatMessage (initState 0) "sockX" sampleChat = (initState 0, [])) :=
  ⟨rfl, c5_unknown_session_discard (initState 0) "sockX" sampleMove sampleChat 200 rfl⟩

/-- C7: a `player_move` from a resolved transport overwrites position and
rotation with the payload values unconditionally (no bounds checks), stamps
`lastMove`, and broadcasts to everyone except the origin socket, keyed by the
logical player id instead of the transport id. -/
theorem c7_move_overwrite_and_broadcast (st : GameState) (sid pid : String)
    (p : Player) (d : MoveData) (now : Int)
    (hsess : mget st.playerSessions sid = some pid)
    (hp : mget st.players pid = some p) :
    playerMove st sid d now =
      ({ st with players := (mset st.players pid
           { p with position := d.position, rotation := d.rotation
                  , lastMove := some now }) },
       [Emit.broadcastExcept sid
          (Msg.playerMove pid d.position d.rotation d.timestamp)]) := by
  simp [playerMove, hsess, hp]

theorem c7_witness :
    mget sampleState.playerSessions "sock1" = some "tokA" ∧
    mget sampleState.players "tokA" = some samplePlayer ∧
    playerMove sampleState "sock1" sampleMove 200 =
      ({ sampleState with players := (mset sampleState.players "tokA"
           { samplePlayer with position := sampleMove.position
                             , rotation := sampleMove.rotation
                             , lastMove := some 200 }) },
       [Emit.broadcastExcept "sock1"
          (Msg.playerMove "tokA" sampleMove.position sampleMove.rotation
            sampleMove.timestamp)]) :=
  ⟨rfl, rfl,
   c7_move_overwrite_and_broadcast sampleState "sock1" "tokA" samplePlayer
     sampleMove 200 rfl rfl⟩

/-- C9: `player_action`, crafting, gathering and building handlers all look
the player up in `players` keyed by the transport id; when the transport id
is not a key of that map (it only holds logical player ids), every one of
them returns before mutating anything and emits nothing. -/
theorem c9_transport_keyed_lookups_noop (st : GameState) (sid : String)
    (a : ActionData) (h : mget st.players sid = none) :
    playerAction st sid a = some (st, []) ∧
    handleCrafting st sid a = some (st, []) ∧
    handleResourceGathering st sid a = some (st, []) ∧
    handleBuildingPlacement st sid a = some (st, []) := by
  refine ⟨?_, ?_, ?_, ?_⟩
  · simp [playerAction, h]
  · simp [handleCrafting, h]
  · simp [handleResourceGathering, h]
  · simp [handleBuildingPlacement, h]

theorem c9_witness :
    mget sampleState.players "sock1" = none ∧
    (playerAction sampleState "sock1" sampleAction = some (sampleState, []) ∧
     handleCrafting sampleState "sock1" sampleAction = some (sampleState, []) ∧
     handleResourceGathering sampleState "sock1" sampleAction = some (sampleState, []) ∧
     handleBuildingPlacement sampleState "sock1" sampleAction = some (sampleState, [])) :=
  ⟨by decide, c9_transport_keyed_lookups_noop sampleState "sock1" sampleAction (by decide)⟩

theorem spawn_coord_bounds (r : ℚ) (h0 : 0 ≤ r) (h1 : r < 1) :
    -25 ≤ (r - 1/2) * 50 ∧ (r - 1/2) * 50 < 25 := by
  constructor <;> nlinarith

/-- C6: one world-clock tick adds `cycleSpeed * deltaSeconds * 60`, wraps to
`0` once the sum reaches `1.0`, and therefore keeps the stored time inside
`[0,1)` and non-decreasing except at the wrap. -/
theorem c6_tick_wraps_into_unit_interval (st : GameState) (now : Int)
    (h0 : 0 ≤ st.worldTime.time) (h1 : st.worldTime.time < 1)
    (hc : 0 ≤ st.worldTime.cycleSpeed) (hn : st.worldTime.lastUpdate ≤ now) :
    0 ≤ (worldTick st now).1.worldTime.time ∧
    (worldTick st now).1.worldTime.time < 1 ∧
    (((worldTick st now).1.worldTime.time = st.worldTime.time + tickInc st now ∧
        st.worldTime.time ≤ (worldTick st now).1.worldTime.time) ∨
      ((worldTick st now).1.worldTime.time = 0 ∧
        1 ≤ st.worldTime.time + tickInc st now)) := by
  have hd : (0 : ℚ) ≤ ((now - st.worldTime.lastUpdate : Int) : ℚ) := by
    exact_mod_cast Int.sub_nonneg.2 hn
  have hinc : 0 ≤ tickInc st now := by
    unfold tickInc
    have hq : (0 : ℚ) ≤ ((now - st.worldTime.lastUpdate : Int) : ℚ) / 1000 :=
      div_nonneg hd (by norm_num)
    nlinarith
  have htick : (worldTick st now).1.worldTime.time =
      if st.worldTime.time + tickInc st now ≥ 1 then 0
      else st.worldTime.time + tickInc st now := rfl
  by_cases hge : st.worldTime.time + tickInc st now ≥ 1
  · rw [htick, if_pos hge]
    exact ⟨le_refl 0, by norm_num, Or.inr ⟨rfl, hge⟩⟩
  · rw [htick, if_neg hge]
    push_neg at hge
    exact ⟨by linarith, hge, Or.inl ⟨rfl, by linarith⟩⟩

theorem c6_witness :
    0 ≤ sampleState.worldTime.time ∧ sampleState.worldTime.time < 1 ∧
    0 ≤ sampleState.worldTime.cycleSpeed ∧ sampleState.worldTime.lastUpdate ≤ 1000 ∧
    (0 ≤ (worldTick sampleState 1000).1.worldTime.time ∧
     (worldTick sampleState 1000).1.worldTime.time < 1 ∧
     (((worldTick sampleState 1000).1.worldTime.time =
          sampleState.worldTime.time + tickInc sampleState 1000 ∧
        sampleState.worldTime.time ≤ (worldTick sampleState 1000).1.worldTime.time) ∨
       ((worldTick sampleState 1000).1.worldTime.time = 0 ∧
        1 ≤ sampleState.worldTime.time + tickInc sampleState 1000))) :=
  ⟨by norm_num [sampleState], by norm_num [sampleState], by norm_num [sampleState],
   by norm_num [sampleState],
   c6_tick_wraps_into_unit_interval sampleState 1000 (by norm_num [sampleState])
     (by norm_num [sampleState]) (by norm_num [sampleState]) (by norm_num [sampleState])⟩

/-- C3 counterexample: joining with the unrecognized token `stale-token` on
an empty world creates the record under the presented token itself — not
under the freshly generated id — and emits no join broadcast, refuting the
claim that every non-resolving join gets a generated id, `isNewPlayer=true`
and a broadcast. -/
theorem c3_counterexample :
    joinIsNewPlayer staleJoin = false ∧
    ((playerJoin (initState 0) "sockA" 0 staleJoin "player_fresh" (1/2)
        (1/2)).2.filter Emit.isBroadcast = []) ∧
    mget (playerJoin (initState 0) "sockA" 0 staleJoin "player_fresh" (1/2)
        (1/2)).1.players "player_fresh" = none ∧
    (mget (playerJoin (initState 0) "sockA" 0 staleJoin "player_fresh" (1/2)
        (1/2)).1.players "stale-token").isSome = true := by
  refine ⟨rfl, ?_, ?_, ?_⟩ <;> rfl

/-- C3 amended: a join with no (truthy) token creates a record under the
freshly generated id with a random spawn inside the 50-unit square around
the origin, sets `isNewPlayer=true` and broadcasts the join; a join with an
unrecognized token also silently creates a record with such a spawn, but
stores it under the presented token itself, keeps `isNewPlayer=false`, and
emits no join broadcast. -/
theorem c3_amended_fresh_and_stale_joins :
    (∀ (st : GameState) (sid : String) (ct : Int) (pd : JoinData)
        (fid : String) (rX rZ : ℚ),
      strFalsy pd.sessionId = true → mget st.players fid = none →
      0 ≤ rX → rX < 1 → 0 ≤ rZ → rZ < 1 →
      joinIsNewPlayer pd = true ∧
      joinPlayerId pd fid = fid ∧
      mget (playerJoin st sid ct pd fid rX rZ).1.players fid =
        some (freshJoinRec pd fid sid ct rX rZ) ∧
      (playerJoin st sid ct pd fid rX rZ).2 =
        [Emit.broadcastExcept sid (Msg.playerJoinB (freshJoinRec pd fid sid ct rX rZ)),
         Emit.toSocket sid (Msg.worldState (snapshotOf (playerJoin st sid ct pd fid rX rZ).1)),
         Emit.toSocket sid (Msg.playerJoined true
           (Player.pub (freshJoinRec pd fid sid ct rX rZ)) fid
           (welcomeMsg (freshJoinRec pd fid sid ct rX rZ).name))] ∧
      (-25 ≤ (freshJoinRec pd fid sid ct rX rZ).position.x ∧
        (freshJoinRec pd fid sid ct rX rZ).position.x < 25 ∧
        (freshJoinRec pd fid sid ct rX rZ).position.y = 0 ∧
        -25 ≤ (freshJoinRec pd fid sid ct rX rZ).position.z ∧
        (freshJoinRec pd fid sid ct rX rZ).position.z < 25)) ∧
    (∀ (st : GameState) (sid : String) (ct : Int) (pd : JoinData)
        (fid tok : String) (rX rZ : ℚ),
      pd.sessionId = some tok → tok ≠ "" → mget st.players tok = none →
      0 ≤ rX → rX < 1 → 0 ≤ rZ → rZ < 1 →
      joinIsNewPlayer pd = false ∧
      mget (playerJoin st sid ct pd fid rX rZ).1.players tok =
        some (freshJoinRec pd tok sid ct rX rZ) ∧
      (mget (playerJoin st sid ct pd fid rX rZ).1.players fid =
        mget st.players fid ∨ tok = fid)) ∧
    (∀ (st : GameState) (sid : String) (ct : Int) (pd : JoinData)
        (fid tok : String) (rX rZ : ℚ),
      pd.sessionId = some tok → tok ≠ "" → mget st.players tok = none →
      (playerJoin st sid ct pd fid rX rZ).2.filter Emit.isBroadcast = []) := by
  refine ⟨?_, ?_, ?_⟩
  · intro st sid ct pd fid rX rZ hfal hfree hx0 hx1 hz0 hz1
    have hid : joinPlayerId pd fid = fid := by
      simp [joinPlayerId, hfal]
    have hnew : joinIsNewPlayer pd = true := hfal
    have hbase : joinBase st ct pd fid rX rZ = mkNewPlayer pd fid ct rX rZ := by
      have hmiss : mget st.players (joinPlayerId pd fid) = none := by
        rw [hid]; exact hfree
      rw [joinBase_of_missing st ct pd fid rX rZ hmiss, hid]
    have hrec : joinPlayerRec st sid ct pd fid rX rZ = freshJoinRec pd fid sid ct rX rZ := by
      simp [joinPlayerRec, hbase, freshJoinRec, mkNewPlayer, sadd]
    have hxb := spawn_coord_bounds rX hx0 hx1
    have hzb := spawn_coord_bounds rZ hz0 hz1
    refine ⟨hnew, hid, ?_, ?_, ?_⟩
    · show mget (joinState st sid ct pd fid rX rZ).players fid = _
      simp only [joinState, hid, hrec]
      exact mget_mset_self _ _ _
    · show (if joinIsNewPlayer pd then _ else _) ++ _ = _
      simp only [hnew, if_true, hid, hrec, List.cons_append, List.nil_append]
      rfl
    · exact ⟨hxb.1, hxb.2, rfl, hzb.1, hzb.2⟩
  · intro st sid ct pd fid tok rX rZ hs hne hmiss hx0 hx1 hz0 hz1
    have hid : joinPlayerId pd fid = tok := by
      simp [joinPlayerId, strFalsy, hs, hne]
    have hnew : joinIsNewPlayer pd = false := by
      simp [joinIsNewPlayer, strFalsy, hs, hne]
    have hbase : joinBase st ct pd fid rX rZ = mkNewPlayer pd tok ct rX rZ := by
      have hmiss2 : mget st.players (joinPlayerId pd fid) = none := by
        rw [hid]; exact hmiss
      rw [joinBase_of_missing st ct pd fid rX rZ hmiss2, hid]
    have hrec : joinPlayerRec st sid ct pd fid rX rZ = freshJoinRec pd tok sid ct rX rZ := by
      simp [joinPlayerRec, hbase, freshJoinRec, mkNewPlayer, sadd]
    refine ⟨hnew, ?_, ?_⟩
    · show mget (joinState st sid ct pd fid rX rZ).players tok = _
      simp only [joinState, hid, hrec]
      exact mget_mset_self _ _ _
    · by_cases hbf : tok = fid
      · exact Or.inr hbf
      · refine Or.inl ?_
        show mget (joinState st sid ct pd fid rX rZ).players fid = _
        simp only [joinState, hid]
        exact mget_mset_ne _ _ _ _ (Ne.symm hbf)
  · intro st sid ct pd fid tok rX rZ hs hne hmiss
    have hnew : joinIsNewPlayer pd = false := by
      simp [joinIsNewPlayer, strFalsy, hs, hne]
    show List.filter _ ((if joinIsNewPlayer pd then _ else _) ++ _) = _
    simp [hnew, Emit.isBroadcast]

theorem c3_witness :
    (strFalsy sampleJoinNoToken.sessionId = true ∧
     mget (initState 0).players "player_fresh" = none ∧
     (0 : ℚ) ≤ 1/4 ∧ (1/4 : ℚ) < 1 ∧ (0 : ℚ) ≤ 3/4 ∧ (3/4 : ℚ) < 1 ∧
     (joinIsNewPlayer sampleJoinNoToken = true ∧
      joinPlayerId sampleJoinNoToken "player_fresh" = "player_fresh" ∧
      mget (playerJoin (initState 0) "sockA" 0 sampleJoinNoToken "player_fresh"
          (1/4) (3/4)).1.players "player_fresh" =
        some (freshJoinRec sampleJoinNoToken "player_fresh" "sockA" 0 (1/4) (3/4)) ∧
      (playerJoin (initState 0) "sockA" 0 sampleJoinNoToken "player_fresh"
          (1/4) (3/4)).2 =
        [Emit.broadcastExcept "sockA"
           (Msg.playerJoinB (freshJoinRec sampleJoinNoToken "player_fresh" "sockA" 0 (1/4) (3/4))),
         Emit.toSocket "sockA"
           (Msg.worldState (snapshotOf (playerJoin (initState 0) "sockA" 0
             sampleJoinNoToken "player_fresh" (1/4) (3/4)).1)),
         Emit.toSocket "sockA"
           (Msg.playerJoined true
             (Player.pub (freshJoinRec sampleJoinNoToken "player_fresh" "sockA" 0 (1/4) (3/4)))
             "player_fresh"
             (welcomeMsg (freshJoinRec sampleJoinNoToken "player_fresh" "sockA" 0 (1/4) (3/4)).name))] ∧
      (-25 ≤ (freshJoinRec sampleJoinNoToken "player_fresh" "sockA" 0 (1/4) (3/4)).position.x ∧
        (freshJoinRec sampleJoinNoToken "player_fresh" "sockA" 0 (1/4) (3/4)).position.x < 25 ∧
        (freshJoinRec sampleJoinNoToken "player_fresh" "sockA" 0 (1/4) (3/4)).position.y = 0 ∧
        -25 ≤ (freshJoinRec sampleJoinNoToken "player_fresh" "sockA" 0 (1/4) (3/4)).position.z ∧
        (freshJoinRec sampleJoinNoToken "player_fresh" "sockA" 0 (1/4) (3/4)).position.z < 25))) ∧
    (staleJoin.sessionId = some "stale-token" ∧ "stale-token" ≠ "" ∧
     mget (initState 0).players "stale-token" = none ∧
     (playerJoin (initState 0) "sockA" 0 staleJoin "player_fresh" (1/4)
        (3/4)).2.filter Emit.isBroadcast = []) :=
  ⟨⟨rfl, rfl, by norm_num, by norm_num, by norm_num, by norm_num,
    c3_amended_fresh_and_stale_joins.1 (initState 0) "sockA" 0 sampleJoinNoToken
      "player_fresh" (1/4) (3/4) rfl rfl (by norm_num) (by norm_num) (by norm_num)
      (by norm_num)⟩,
   ⟨rfl, by decide, rfl,
    c3_amended_fresh_and_stale_joins.2.2 (initState 0) "sockA" 0 staleJoin
      "player_fresh" "stale-token" (1/4) (3/4) rfl (by decide) rfl⟩⟩

theorem runSends_gap (calls : List (Nat × Vec3)) (c : NetClient)
    (hpos : ∀ p ∈ calls, 1 ≤ p.1) :
    List.Chain' (fun a b => a + 100 ≤ b)
      ((if c.lastPositionUpdate = 0 then ([] : List Nat)
        else [c.lastPositionUpdate]) ++
        (runSends c calls).2.map OutMoveMsg.timestamp) := by
  induction calls generalizing c with
  | nil =>
    simp only [runSends, List.map_nil, List.append_nil]
    split
    · exact List.chain'_nil
    · exact List.chain'_singleton _
  | cons p rest ih =>
    obtain ⟨t, pos⟩ := p
    have ht : 1 ≤ t := hpos (t, pos) (by simp)
    have hrest : ∀ q ∈ rest, 1 ≤ q.1 := fun q hq => hpos q (by simp [hq])
    by_cases hconn : (!c.hasSocket || !c.isConnected) = true
    · have hstep : sendPlayerPosition c t pos = (c, none) := by
        simp [sendPlayerPosition, hconn]
      simp only [runSends, hstep, List.nil_append]
      exact ih c hrest
    · by_cases hskip : c.lastPositionUpdate ≠ 0 ∧ t - c.lastPositionUpdate < 100
      · have hstep : sendPlayerPosition c t pos = (c, none) := by
          simp only [sendPlayerPosition, hconn, Bool.false_eq_true, if_false, if_pos hskip]
        simp only [runSends, hstep, List.nil_append]
        exact ih c hrest
      · have hstep : sendPlayerPosition c t pos =
            ({ c with lastPositionUpdate := t },
             some { playerId := c.playerId, position := pos, timestamp := t }) := by
          simp only [sendPlayerPosition, hconn, Bool.false_eq_true, if_false,
            if_neg hskip]
        have ht0 : ¬ t = 0 := by omega
        have ihc : List.Chain' (fun a b => a + 100 ≤ b)
            (t :: (runSends { c with lastPositionUpdate := t } rest).2.map
              OutMoveMsg.timestamp) := by
          simpa [ht0] using ih { c with lastPositionUpdate := t } hrest
        by_cases hl : c.lastPositionUpdate = 0
        · simp only [runSends, hstep, hl, if_pos, List.nil_append,
            List.singleton_append, List.map_cons]
          simpa using ihc
        · have hgap : c.lastPositionUpdate + 100 ≤ t := by
            have hs2 := hskip
            push_neg at hs2
            have h100 := hs2 hl
            omega
          simp only [runSends, hstep, if_neg hl, List.singleton_append,
            List.map_cons, List.cons_append]
          exact List.chain'_cons.2 ⟨hgap, ihc⟩

/-- C8: the client position publisher never emits two move messages less
than 100ms apart — starting from the constructor state, consecutive emitted
timestamps always differ by at least 100 — and any call made less than 100ms
after the previous successful send emits nothing. -/
theorem c8_position_publish_rate_limited :
    (∀ (calls : List (Nat × Vec3)) (hs hc : Bool) (pid : Option String),
      (∀ p ∈ calls, 1 ≤ p.1) →
      List.Chain' (fun a b => a + 100 ≤ b)
        ((runSends { hasSocket := hs, isConnected := hc, playerId := pid
                   , lastPositionUpdate := 0 } calls).2.map OutMoveMsg.timestamp)) ∧
    (∀ (c : NetClient) (now : Nat) (pos : Vec3),
      c.lastPositionUpdate ≠ 0 → now < c.lastPositionUpdate + 100 →
      (sendPlayerPosition c now pos).2 = none) := by
  constructor
  · intro calls hs hc pid hpos
    have h := runSends_gap calls
      { hasSocket := hs, isConnected := hc, playerId := pid
      , lastPositionUpdate := 0 } hpos
    simpa using h
  · intro c now pos hne hlt
    by_cases hconn : (!c.hasSocket || !c.isConnected) = true
    · simp [sendPlayerPosition, hconn]
    · have hs : c.lastPositionUpdate ≠ 0 ∧ now - c.lastPositionUpdate < 100 :=
        ⟨hne, by omega⟩
      simp only [sendPlayerPosition, hconn, Bool.false_eq_true, if_false, if_pos hs]

theorem c8_witness :
    (∀ p ∈ [((1000 : Nat), sampleVec), (1050, sampleVec), (1200, sampleVec)], 1 ≤ p.1) ∧
    List.Chain' (fun a b => a + 100 ≤ b)
      ((runSends { hasSocket := true, isConnected := true, playerId := some "tokA"
                 , lastPositionUpdate := 0 }
         [(1000, sampleVec), (1050, sampleVec), (1200, sampleVec)]).2.map
        OutMoveMsg.timestamp) ∧
    (sampleClient.lastPositionUpdate ≠ 0 ∧ 150 < sampleClient.lastPositionUpdate + 100 ∧
     (sendPlayerPosition sampleClient 150 sampleVec).2 = none) :=
  ⟨by decide,
   c8_position_publish_rate_limited.1
     [(1000, sampleVec), (1050, sampleVec), (1200, sampleVec)] true true
     (some "tokA") (by decide),
   ⟨by decide, by decide,
    c8_position_publish_rate_limited.2 sampleClient 150 sampleVec (by decide)
      (by decide)⟩⟩

theorem invIds_joinState (st : GameState) (sid : String) (ct : Int)
    (pd : JoinData) (fid : String) (rX rZ : ℚ) (hIds : InvIds st) :
    InvIds (joinState st sid ct pd fid rX rZ) := by
  intro k q hq
  simp only [joinState] at hq
  by_cases he : k = joinPlayerId pd fid
  · subst he
    rw [mget_mset_self] at hq
    injection hq with hq
    subst hq
    show (joinPlayerRec st sid ct pd fid rX rZ).id = _
    simp only [joinPlayerRec]
    exact joinBase_id st ct pd fid rX rZ hIds
  · rw [mget_mset_ne _ _ _ _ he] at hq
    exact hIds k q hq

theorem invIds_sampleState : InvIds sampleState := by
  intro k q h
  simp only [sampleState, mget] at h
  by_cases hk : "tokA" = k
  · rw [if_pos hk] at h
    injection h with h
    subst h
    exact hk.symm ▸ rfl
  · rw [if_neg hk] at h
    exact absurd h (by simp [mget])

/-- C10: the `sessionToken` confirmed to a joining socket is exactly the
logical player id under which the record is stored; the same id appears in
the join broadcast's player object and (via the stored-id invariant) in every
snapshot entry; and presenting any stored id as a token later reattaches to
that very record. -/
theorem c10_session_token_is_logical_id (st : GameState) (sid : String)
    (ct : Int) (pd : JoinData) (fid : String) (rX rZ : ℚ) (hIds : InvIds st) :
    mget (playerJoin st sid ct pd fid rX rZ).1.players (joinPlayerId pd fid) =
      some (joinPlayerRec st sid ct pd fid rX rZ) ∧
    (joinPlayerRec st sid ct pd fid rX rZ).id = joinPlayerId pd fid ∧
    (playerJoin st sid ct pd fid rX rZ).2 =
      (if joinIsNewPlayer pd then
         [Emit.broadcastExcept sid (Msg.playerJoinB (joinPlayerRec st sid ct pd fid rX rZ))]
       else []) ++
        [Emit.toSocket sid (Msg.worldState (snapshotOf (playerJoin st sid ct pd fid rX rZ).1)),
         Emit.toSocket sid (Msg.playerJoined true
           (Player.pub (joinPlayerRec st sid ct pd fid rX rZ))
           (joinPlayerId pd fid)
           (welcomeMsg (joinPlayerRec st sid ct pd fid rX rZ).name))] ∧
    InvIds (playerJoin st sid ct pd fid rX rZ).1 ∧
    (snapshotOf (playerJoin st sid ct pd fid rX rZ).1).players =
      ((playerJoin st sid ct pd fid rX rZ).1.players).map (fun kv => Player.pub kv.2) ∧
    (∀ k q, mget (playerJoin st sid ct pd fid rX rZ).1.players k = some q →
      k ≠ "" →
      ∀ (sid2 : String) (ct2 : Int) (pd2 : JoinData) (fid2 : String) (r1 r2 : ℚ),
        pd2.sessionId = some k →
        joinIsNewPlayer pd2 = false ∧
        mget (playerJoin (playerJoin st sid ct pd fid rX rZ).1 sid2 ct2 pd2
            fid2 r1 r2).1.players k = some { q with sessions := sadd q.sessions sid2 }) := by
  refine ⟨?_, ?_, rfl, ?_, rfl, ?_⟩
  · show mget (joinState st sid ct pd fid rX rZ).players _ = _
    simp only [joinState]
    exact mget_mset_self _ _ _
  · simp only [joinPlayerRec]
    exact joinBase_id st ct pd fid rX rZ hIds
  · exact invIds_joinState st sid ct pd fid rX rZ hIds
  · intro k q hq hk sid2 ct2 pd2 fid2 r1 r2 hs2
    have hid2 : joinPlayerId pd2 fid2 = k := by
      simp [joinPlayerId, strFalsy, hs2, hk]
    have hnew2 : joinIsNewPlayer pd2 = false := by
      simp [joinIsNewPlayer, strFalsy, hs2, hk]
    have hbase2 : joinBase (playerJoin st sid ct pd fid rX rZ).1 ct2 pd2 fid2 r1 r2 = q := by
      apply joinBase_of_found
      rw [hid2]
      exact hq
    have hrec2 : joinPlayerRec (playerJoin st sid ct pd fid rX rZ).1 sid2 ct2 pd2 fid2 r1 r2
        = { q with sessions := sadd q.sessions sid2 } := by
      simp only [joinPlayerRec, hbase2]
    refine ⟨hnew2, ?_⟩
    show mget (joinState (playerJoin st sid ct pd fid rX rZ).1 sid2 ct2 pd2 fid2 r1 r2).players k = _
    simp only [joinState, hid2, hrec2]
    exact mget_mset_self _ _ _

theorem c10_witness :
    InvIds sampleState ∧
    (mget (playerJoin sampleState "sock2" 5 sampleJoin "player_fresh" 0 0).1.players
        (joinPlayerId sampleJoin "player_fresh") =
      some (joinPlayerRec sampleState "sock2" 5 sampleJoin "player_fresh" 0 0) ∧
     (joinPlayerRec sampleState "sock2" 5 sampleJoin "player_fresh" 0 0).id =
       joinPlayerId sampleJoin "player_fresh" ∧
     (playerJoin sampleState "sock2" 5 sampleJoin "player_fresh" 0 0).2 =
       (if joinIsNewPlayer sampleJoin then
          [Emit.broadcastExcept "sock2"
             (Msg.playerJoinB (joinPlayerRec sampleState "sock2" 5 sampleJoin "player_fresh" 0 0))]
        else []) ++
         [Emit.toSocket "sock2"
            (Msg.worldState (snapshotOf (playerJoin sampleState "sock2" 5 sampleJoin
              "player_fresh" 0 0).1)),
          Emit.toSocket "sock2"
            (Msg.playerJoined true
              (Player.pub (joinPlayerRec sampleState "sock2" 5 sampleJoin "player_fresh" 0 0))
              (joinPlayerId sampleJoin "player_fresh")
              (welcomeMsg (joinPlayerRec sampleState "sock2" 5 sampleJoin "player_fresh" 0 0).name))] ∧
     InvIds (playerJoin sampleState "sock2" 5 sampleJoin "player_fresh" 0 0).1 ∧
     (snapshotOf (playerJoin sampleState "sock2" 5 sampleJoin "player_fresh" 0 0).1).players =
       ((playerJoin sampleState "sock2" 5 sampleJoin "player_fresh" 0 0).1.players).map
         (fun kv => Player.pub kv.2) ∧
     (∀ k q,
        mget (playerJoin sampleState "sock2" 5 sampleJoin "player_fresh" 0 0).1.players k = some q →
        k ≠ "" →
        ∀ (sid2 : String) (ct2 : Int) (pd2 : JoinData) (fid2 : String) (r1 r2 : ℚ),
          pd2.sessionId = some k →
          joinIsNewPlayer pd2 = false ∧
          mget (playerJoin (playerJoin sampleState "sock2" 5 sampleJoin "player_fresh" 0 0).1
              sid2 ct2 pd2 fid2 r1 r2).1.players k =
            some { q with sessions := sadd q.sessions sid2 })) :=
  ⟨invIds_sampleState,
   c10_session_token_is_logical_id sampleState "sock2" 5 sampleJoin "player_fresh" 0 0
     invIds_sampleState⟩

end EgyptMMO
